import Mathlib

/-!
Shallow embedding of the Training Engine of the left-hand shortcut trainer
(src/trainer_window.h, src/trainer_window.cpp).  Pure-display state (labels
other than the error label, the virtual keyboard, progress bars, sounds,
the pressed-key set used only for keyboard rendering) is omitted; every
field and function that carries engine state is translated one-to-one from
the source.  Wall-clock time (QElapsedTimer) is modelled by an explicit
`since_restart` millisecond counter that external `advance` events grow;
`elapsed_->restart()` becomes `since_restart := 0`.  Randomness
(QRandomGenerator::global()->bounded(n)) is modelled by an oracle `rand`
parameter reduced modulo the working-set size.
-/

namespace LeftTrainer

/-! Qt key-code and modifier constants (values from Qt's qnamespace.h),
    only those the program uses. -/

def Key_Space : Nat := 0x20
def Key_Exclam : Nat := 0x21
def Key_NumberSign : Nat := 0x23
def Key_Dollar : Nat := 0x24
def Key_Percent : Nat := 0x25
def Key_At : Nat := 0x40
def Key_0 : Nat := 0x30
def Key_A : Nat := 0x41
def Key_C : Nat := 0x43
def Key_D : Nat := 0x44
def Key_E : Nat := 0x45
def Key_F : Nat := 0x46
def Key_Q : Nat := 0x51
def Key_R : Nat := 0x52
def Key_S : Nat := 0x53
def Key_V : Nat := 0x56
def Key_W : Nat := 0x57
def Key_X : Nat := 0x58
def Key_Z : Nat := 0x5A
def Key_Escape : Nat := 0x01000000
def Key_Tab : Nat := 0x01000001
def Key_Backtab : Nat := 0x01000002
def Key_Shift : Nat := 0x01000020
def Key_Control : Nat := 0x01000021
def Key_Meta : Nat := 0x01000022
def Key_Alt : Nat := 0x01000023
def Key_CapsLock : Nat := 0x01000024
def Key_F1 : Nat := 0x01000030
def Key_F2 : Nat := 0x01000031
def Key_F3 : Nat := 0x01000032
def Key_F4 : Nat := 0x01000033
def Key_F5 : Nat := 0x01000034
def Key_F6 : Nat := 0x01000035
def Key_F7 : Nat := 0x01000036
def Key_F8 : Nat := 0x01000037

def ShiftModifier : Nat := 0x02000000
def ControlModifier : Nat := 0x04000000
def AltModifier : Nat := 0x08000000
def MetaModifier : Nat := 0x10000000

/-- The mask `Qt::ControlModifier | Qt::ShiftModifier | Qt::AltModifier |
    Qt::MetaModifier` applied to event modifiers in the kCombo branch
    (trainer_window.cpp:1456-1458). -/
def relevantModifierMask : Nat :=
  ControlModifier ||| ShiftModifier ||| AltModifier ||| MetaModifier

/-! Engine enums (trainer_window.h:61-86). -/

inductive Difficulty where
  | kBeginner
  | kIntermediate
  | kAdvanced
  | kCustom
deriving DecidableEq, Repr

inductive TrainingMode where
  | kEndless
  | kTimed
  | kChallenge
  | kZen
deriving DecidableEq, Repr

inductive TrainingType where
  | kSingleKey
  | kCombo
  | kSequence
  | kSpecialKey
deriving DecidableEq, Repr

/-- trainer_window.h:88-102.  QStrings are `List Char` where the engine
    indexes them character-wise (`sequence`), `String` where they are
    opaque display text (`label`). -/
structure TrainingItem where
  type : TrainingType
  label : String := ""
  sequence : List Char := []
  key : Nat := 0
  modifiers : Nat := 0
  min_difficulty : Difficulty := Difficulty.kBeginner
deriving DecidableEq, Repr

/-- TrainingItem::MakeSingleKey (trainer_window.cpp:29-37). -/
def TrainingItem.MakeSingleKey (ch : Char) (diff : Difficulty) : TrainingItem :=
  { type := TrainingType.kSingleKey
    sequence := [ch.toLower]
    label := String.mk [ch.toUpper]
    min_difficulty := diff }

/-- TrainingItem::MakeSequence (trainer_window.cpp:39-47). -/
def TrainingItem.MakeSequence (seq : List Char) (diff : Difficulty) : TrainingItem :=
  { type := TrainingType.kSequence
    sequence := seq.map Char.toLower
    label := String.mk (seq.map Char.toUpper)
    min_difficulty := diff }

/-- TrainingItem::MakeCombo (trainer_window.cpp:49-58). -/
def TrainingItem.MakeCombo (mods : Nat) (key : Nat) (label : String)
    (diff : Difficulty) : TrainingItem :=
  { type := TrainingType.kCombo
    key := key
    modifiers := mods
    label := label
    min_difficulty := diff }

/-- TrainingItem::MakeSpecialKey (trainer_window.cpp:60-68). -/
def TrainingItem.MakeSpecialKey (key : Nat) (label : String)
    (diff : Difficulty) : TrainingItem :=
  { type := TrainingType.kSpecialKey
    key := key
    label := label
    min_difficulty := diff }

/-- trainer_window.h:105-112.  The source stores `duration_seconds` as a
    double computed as `(elapsed + paused_elapsed) / 1000.0`
    (trainer_window.cpp:965); we keep the integer millisecond numerator,
    which determines it. The wall-clock `timestamp` is outside the model. -/
structure SessionRecord where
  total_rounds : Nat
  correct_rounds : Nat
  duration_ms : Nat
  difficulty : Difficulty
  mode : TrainingMode
deriving DecidableEq, Repr

/-- trainer_window.h:181. -/
def kMaxHistoryRecords : Nat := 100

/-- The engine-relevant member state of TrainerWindow
    (trainer_window.h:146-185). `since_restart` models
    `elapsed_->elapsed()` (ms since the last `restart()`), `elapsed_valid`
    models `elapsed_->isValid()`, `countdown_active` models whether
    `countdown_timer_` is running. -/
structure TrainerState where
  all_items : List TrainingItem
  items : List TrainingItem
  current_index : Int
  sequence_pos : Nat
  training : Bool
  paused : Bool
  rounds_total : Nat
  rounds_correct : Nat
  target_rounds : Nat
  time_limit_seconds : Nat
  remaining_seconds : Int
  difficulty : Difficulty
  mode : TrainingMode
  custom_single_keys : Bool
  custom_special_keys : Bool
  custom_combos : Bool
  custom_sequences : Bool
  elapsed_valid : Bool
  since_restart : Nat
  paused_elapsed : Nat
  countdown_active : Bool
  history : List SessionRecord
  error_label : String
deriving Repr

/-- A key event as the engine sees it: `event->key()`,
    `event->modifiers()`, `event->text()` (a QString, hence `List Char`). -/
structure KeyEvent where
  key : Nat
  modifiers : Nat
  text : List Char
deriving DecidableEq, Repr

/-! Error-message text.  The source renders these in Chinese with the same
    structure (trainer_window.cpp:1434, 1469, 1545, 1619); only their
    non-emptiness and the places that set them matter to the engine. -/

def mismatchErrorText (expected got : Char) : String :=
  "error: expected " ++ String.mk [expected] ++ ", got " ++ String.mk [got]

def pressErrorText (label : String) : String :=
  "error: press " ++ label

def closeBlockedText : String :=
  "warning: cannot close the window while training"

/-- The per-item inclusion test of FilterItemsByDifficulty
    (trainer_window.cpp:646-676). -/
def itemIncluded (diff : Difficulty) (customSingle customSpecial customCombo
    customSeq : Bool) (item : TrainingItem) : Bool :=
  match diff with
  | Difficulty.kBeginner => decide (item.min_difficulty = Difficulty.kBeginner)
  | Difficulty.kIntermediate =>
      decide (item.min_difficulty = Difficulty.kBeginner) ||
      decide (item.min_difficulty = Difficulty.kIntermediate)
  | Difficulty.kAdvanced => true
  | Difficulty.kCustom =>
      match item.type with
      | TrainingType.kSingleKey => customSingle
      | TrainingType.kSpecialKey => customSpecial
      | TrainingType.kCombo => customCombo
      | TrainingType.kSequence => customSeq

/-- TrainerWindow::FilterItemsByDifficulty (trainer_window.cpp:643-687),
    including the empty-result fallback to `all_items_`. -/
def FilterItemsByDifficulty (s : TrainerState) : TrainerState :=
  let included := s.all_items.filter
    (itemIncluded s.difficulty s.custom_single_keys s.custom_special_keys
      s.custom_combos s.custom_sequences)
  if included.isEmpty then { s with items := s.all_items }
  else { s with items := included }

/-- TrainerWindow::NextItem (trainer_window.cpp:842-853).
    `QRandomGenerator::global()->bounded(items_.size())` is modelled by the
    oracle `rand % items.length`; the claims use only that the result is a
    valid index. -/
def NextItem (rand : Nat) (s : TrainerState) : TrainerState :=
  if s.items.isEmpty then s
  else
    { s with current_index := Int.ofNat (rand % s.items.length)
             sequence_pos := 0
             error_label := "" }

/-- The elapsed-milliseconds value the statistics use
    (trainer_window.cpp:898, identical expression at 925 and, without the
    pause branch, 965): `elapsed_->isValid() ? (paused_ ? paused_elapsed_
    : elapsed_->elapsed() + paused_elapsed_) : 0`. -/
def statsElapsedMs (s : TrainerState) : Nat :=
  if s.elapsed_valid then
    (if s.paused then s.paused_elapsed else s.since_restart + s.paused_elapsed)
  else 0

/-- The history append of SaveSessionRecord (trainer_window.cpp:969-974):
    prepend, then `while (size > kMaxHistoryRecords) removeLast()`, which
    is exactly `take kMaxHistoryRecords`. -/
def appendHistory (history : List SessionRecord) (record : SessionRecord) :
    List SessionRecord :=
  (record :: history).take kMaxHistoryRecords

/-- The record SaveSessionRecord builds (trainer_window.cpp:961-967). -/
def sessionRecordOf (s : TrainerState) : SessionRecord :=
  { total_rounds := s.rounds_total
    correct_rounds := s.rounds_correct
    duration_ms := s.since_restart + s.paused_elapsed
    difficulty := s.difficulty
    mode := s.mode }

/-- TrainerWindow::SaveSessionRecord (trainer_window.cpp:960-977). -/
def SaveSessionRecord (s : TrainerState) : TrainerState :=
  { s with history := appendHistory s.history (sessionRecordOf s) }

/-- TrainerWindow::StopTraining (trainer_window.cpp:793-814). -/
def StopTraining (s : TrainerState) : TrainerState :=
  let s1 := { s with countdown_active := false }
  let s2 := if 0 < s1.rounds_total ∧ s1.mode ≠ TrainingMode.kZen then
              SaveSessionRecord s1
            else s1
  { s2 with training := false, paused := false, error_label := "" }

/-- TrainerWindow::PauseTraining (trainer_window.cpp:816-825).  Note the
    source assigns `paused_elapsed_ = elapsed_->elapsed()`
    (trainer_window.cpp:820): the previous paused-total is overwritten,
    not accumulated. -/
def PauseTraining (s : TrainerState) : TrainerState :=
  if ¬s.training ∨ s.paused then s
  else
    { s with paused := true
             paused_elapsed := s.since_restart
             countdown_active := false }

/-- TrainerWindow::ResumeTraining (trainer_window.cpp:827-840);
    `elapsed_->restart()` becomes `since_restart := 0`. -/
def ResumeTraining (s : TrainerState) : TrainerState :=
  if ¬s.training ∨ ¬s.paused then s
  else
    let s1 := { s with paused := false, since_restart := 0 }
    if s1.mode = TrainingMode.kTimed then { s1 with countdown_active := true }
    else s1

/-- TrainerWindow::StartTraining (trainer_window.cpp:733-791), engine part:
    re-filter if the working set is empty and bail out if it still is;
    reset counters, flags, pause bookkeeping; restart the elapsed timer;
    seed Timed mode; pick the first item. -/
def StartTraining (rand : Nat) (s : TrainerState) : TrainerState :=
  let s0 := if s.items.isEmpty then FilterItemsByDifficulty s else s
  if s0.items.isEmpty then s0
  else
    let s1 := { s0 with rounds_total := 0
                        rounds_correct := 0
                        training := true
                        paused := false
                        sequence_pos := 0
                        paused_elapsed := 0
                        error_label := ""
                        elapsed_valid := true
                        since_restart := 0 }
    let s2 := match s1.mode with
      | TrainingMode.kTimed =>
          { s1 with remaining_seconds := (s1.time_limit_seconds : Int)
                    countdown_active := true }
      | _ => s1
    NextItem rand s2

/-- TrainerWindow::OnTimerTick (trainer_window.cpp:944-958). -/
def OnTimerTick (s : TrainerState) : TrainerState :=
  if ¬s.training ∨ s.paused then s
  else if s.mode = TrainingMode.kTimed then
    let s1 := { s with remaining_seconds := s.remaining_seconds - 1 }
    if s1.remaining_seconds ≤ 0 then StopTraining s1 else s1
  else s

/-- TrainerWindow::IsCurrentItemAltF4 (trainer_window.cpp:1254-1262). -/
def IsCurrentItemAltF4 (s : TrainerState) : Bool :=
  if ¬s.training ∨ s.current_index < 0 ∨
      (s.items.length : Int) ≤ s.current_index then false
  else
    match s.items.get? s.current_index.toNat with
    | none => false
    | some item =>
        decide (item.type = TrainingType.kCombo) &&
        decide (item.key = Key_F4) &&
        decide (item.modifiers &&& AltModifier ≠ 0)

/-- The challenge-completion check that follows every processed round
    (trainer_window.cpp:1444-1447, 1476-1479, 1501-1504, 1562-1565,
    1610-1613): `if (mode_ == kChallenge && rounds_correct_ >=
    target_rounds_) StopTraining();`. -/
def checkChallenge (s : TrainerState) : TrainerState :=
  if s.mode = TrainingMode.kChallenge ∧ s.target_rounds ≤ s.rounds_correct then
    StopTraining s
  else s

/-- The kSingleKey case of the keyPressEvent switch
    (trainer_window.cpp:1419-1449). -/
def handleSingleKey (item : TrainingItem) (ev : KeyEvent) (rand : Nat)
    (s : TrainerState) : TrainerState :=
  match ev.text.map Char.toLower with
  | [] => s
  | ch :: _ =>
    let expected := item.sequence.headD (Char.ofNat 0)
    let s1 := { s with rounds_total := s.rounds_total + 1 }
    if item.sequence ≠ [] ∧ ch = expected then
      checkChallenge (NextItem rand
        { s1 with rounds_correct := s1.rounds_correct + 1, error_label := "" })
    else
      checkChallenge { s1 with error_label := mismatchErrorText expected ch }

/-- The kCombo case of the keyPressEvent switch
    (trainer_window.cpp:1451-1481), including the Alt+F4 swallow. -/
def handleCombo (item : TrainingItem) (ev : KeyEvent) (rand : Nat)
    (s : TrainerState) : TrainerState :=
  if IsCurrentItemAltF4 s then s
  else
    let mods := ev.modifiers &&& relevantModifierMask
    let s1 := { s with rounds_total := s.rounds_total + 1 }
    if ev.key = item.key ∧ mods = item.modifiers then
      checkChallenge (NextItem rand
        { s1 with rounds_correct := s1.rounds_correct + 1, error_label := "" })
    else
      checkChallenge { s1 with error_label := pressErrorText item.label }

/-- The kSpecialKey case of the keyPressEvent switch
    (trainer_window.cpp:1483-1506). -/
def handleSpecialKey (item : TrainingItem) (ev : KeyEvent) (rand : Nat)
    (s : TrainerState) : TrainerState :=
  let s1 := { s with rounds_total := s.rounds_total + 1 }
  if ev.key = item.key then
    checkChallenge (NextItem rand
      { s1 with rounds_correct := s1.rounds_correct + 1, error_label := "" })
  else
    checkChallenge { s1 with error_label := pressErrorText item.label }

/-- The kSequence case of the keyPressEvent switch
    (trainer_window.cpp:1508-1567).  `sequence_pos_` is a C++ int only
    ever assigned 0 or incremented, hence `Nat`; the source's defensive
    `pos < 0` half of the range check is vacuous here. -/
def handleSequence (item : TrainingItem) (ev : KeyEvent) (rand : Nat)
    (s : TrainerState) : TrainerState :=
  match ev.text.map Char.toLower with
  | [] => s
  | ch :: _ =>
    let seq := item.sequence
    if seq.isEmpty then s
    else
      let pos := if seq.length ≤ s.sequence_pos then 0 else s.sequence_pos
      let expected := seq.getD pos (Char.ofNat 0)
      if ch = expected then
        if seq.length ≤ pos + 1 then
          checkChallenge (NextItem rand
            { s with rounds_total := s.rounds_total + 1
                     rounds_correct := s.rounds_correct + 1
                     error_label := "" })
        else
          checkChallenge { s with sequence_pos := pos + 1, error_label := "" }
      else
        checkChallenge
          { s with rounds_total := s.rounds_total + 1
                   sequence_pos := 0
                   error_label := mismatchErrorText expected ch }

/-- TrainerWindow::keyPressEvent (trainer_window.cpp:1373-1571).  The
    pressed-key set and modifier tracking (lines 1391-1393) feed only the
    virtual-keyboard display and are omitted. -/
def keyPressEvent (ev : KeyEvent) (rand : Nat) (s : TrainerState) :
    TrainerState :=
  if s.paused ∧ ev.key = Key_Space then ResumeTraining s
  else if ¬s.training ∨ s.paused then s
  else if s.items.isEmpty ∨ s.current_index < 0 ∨
      (s.items.length : Int) ≤ s.current_index then s
  else if ev.key = Key_Shift ∨ ev.key = Key_Control ∨
      ev.key = Key_Alt ∨ ev.key = Key_Meta then s
  else if ev.key = Key_Escape then StopTraining s
  else
    match s.items.get? s.current_index.toNat with
    | none => s
    | some item =>
      match item.type with
      | TrainingType.kSingleKey => handleSingleKey item ev rand s
      | TrainingType.kCombo => handleCombo item ev rand s
      | TrainingType.kSpecialKey => handleSpecialKey item ev rand s
      | TrainingType.kSequence => handleSequence item ev rand s

/-- TrainerWindow::closeEvent (trainer_window.cpp:1600-1626).  The Bool is
    whether the close proceeds (`true`) or is suppressed via
    `event->ignore()` (`false`).  SaveSettings on the accepted path is
    outside the engine. -/
def closeEvent (rand : Nat) (s : TrainerState) : TrainerState × Bool :=
  if s.training then
    if IsCurrentItemAltF4 s then
      let s1 := { s with rounds_total := s.rounds_total + 1
                         rounds_correct := s.rounds_correct + 1
                         error_label := "" }
      (checkChallenge (NextItem rand s1), false)
    else
      ({ s with error_label := closeBlockedText }, false)
  else (s, true)

/-! The event-driven execution model (§5 of the spec): the engine mutates
    only in response to key events, timer ticks, button clicks and a close
    request; `advance ms` models `ms` milliseconds of wall time passing
    (QElapsedTimer keeps counting through it). -/

inductive Event where
  | key : KeyEvent → Nat → Event
  | tick : Event
  | advance : Nat → Event
  | pauseClick : Event
  | resumeClick : Event
  | stopClick : Event
  | closeReq : Nat → Event

def step (s : TrainerState) (e : Event) : TrainerState :=
  match e with
  | Event.key ev rand => keyPressEvent ev rand s
  | Event.tick => OnTimerTick s
  | Event.advance ms => { s with since_restart := s.since_restart + ms }
  | Event.pauseClick => PauseTraining s
  | Event.resumeClick => ResumeTraining s
  | Event.stopClick => StopTraining s
  | Event.closeReq rand => (closeEvent rand s).1

def run (s : TrainerState) (es : List Event) : TrainerState :=
  es.foldl step s

/-- Ghost accounting: the wall-clock milliseconds a trace spends with the
    session in the Running state (training and not paused). -/
def runningMs (s : TrainerState) : List Event → Nat
  | [] => 0
  | e :: es =>
      (match e with
       | Event.advance ms => if s.training ∧ ¬s.paused then ms else 0
       | _ => 0) + runningMs (step s e) es

/-- TrainerWindow::InitAllTrainingItems (trainer_window.cpp:527-641). -/
def InitAllTrainingItems : List TrainingItem :=
  ("12345qwertasdfgzxcvb".toList.map
    (fun ch => TrainingItem.MakeSingleKey ch Difficulty.kBeginner)) ++
  ("67yhun".toList.map
    (fun ch => TrainingItem.MakeSingleKey ch Difficulty.kIntermediate)) ++
  [TrainingItem.MakeSpecialKey Key_Space "Space" Difficulty.kBeginner,
   TrainingItem.MakeSpecialKey Key_Tab "Tab" Difficulty.kIntermediate,
   TrainingItem.MakeSpecialKey Key_CapsLock "Caps" Difficulty.kIntermediate,
   TrainingItem.MakeSpecialKey Key_F1 "F1" Difficulty.kIntermediate,
   TrainingItem.MakeSpecialKey Key_F2 "F2" Difficulty.kIntermediate,
   TrainingItem.MakeSpecialKey Key_F3 "F3" Difficulty.kIntermediate,
   TrainingItem.MakeSpecialKey Key_F4 "F4" Difficulty.kIntermediate,
   TrainingItem.MakeSpecialKey Key_F5 "F5" Difficulty.kAdvanced,
   TrainingItem.MakeSpecialKey Key_F6 "F6" Difficulty.kAdvanced,
   TrainingItem.MakeSpecialKey Key_F7 "F7" Difficulty.kAdvanced,
   TrainingItem.MakeSpecialKey Key_F8 "F8" Difficulty.kAdvanced] ++
  ((List.range 5).map (fun i =>
    TrainingItem.MakeCombo ControlModifier (Key_0 + (i + 1))
      ("Ctrl+" ++ toString (i + 1)) Difficulty.kIntermediate)) ++
  ((List.range 4).map (fun i =>
    TrainingItem.MakeCombo ControlModifier (Key_0 + (i + 6))
      ("Ctrl+" ++ toString (i + 6)) Difficulty.kAdvanced)) ++
  [TrainingItem.MakeCombo ControlModifier Key_0 "Ctrl+0" Difficulty.kAdvanced,
   TrainingItem.MakeCombo ShiftModifier Key_Exclam "Shift+1" Difficulty.kIntermediate,
   TrainingItem.MakeCombo ShiftModifier Key_At "Shift+2" Difficulty.kIntermediate,
   TrainingItem.MakeCombo ShiftModifier Key_NumberSign "Shift+3" Difficulty.kIntermediate,
   TrainingItem.MakeCombo ShiftModifier Key_Dollar "Shift+4" Difficulty.kIntermediate,
   TrainingItem.MakeCombo ShiftModifier Key_Percent "Shift+5" Difficulty.kIntermediate,
   TrainingItem.MakeCombo ControlModifier Key_Q "Ctrl+Q" Difficulty.kIntermediate,
   TrainingItem.MakeCombo ControlModifier Key_W "Ctrl+W" Difficulty.kIntermediate,
   TrainingItem.MakeCombo ControlModifier Key_E "Ctrl+E" Difficulty.kIntermediate,
   TrainingItem.MakeCombo ControlModifier Key_R "Ctrl+R" Difficulty.kIntermediate,
   TrainingItem.MakeCombo ControlModifier Key_A "Ctrl+A" Difficulty.kIntermediate,
   TrainingItem.MakeCombo ControlModifier Key_S "Ctrl+S" Difficulty.kIntermediate,
   TrainingItem.MakeCombo ControlModifier Key_D "Ctrl+D" Difficulty.kIntermediate,
   TrainingItem.MakeCombo ControlModifier Key_F "Ctrl+F" Difficulty.kIntermediate,
   TrainingItem.MakeCombo ControlModifier Key_Z "Ctrl+Z" Difficulty.kIntermediate,
   TrainingItem.MakeCombo ControlModifier Key_X "Ctrl+X" Difficulty.kIntermediate,
   TrainingItem.MakeCombo ControlModifier Key_C "Ctrl+C" Difficulty.kIntermediate,
   TrainingItem.MakeCombo ControlModifier Key_V "Ctrl+V" Difficulty.kIntermediate,
   TrainingItem.MakeCombo ShiftModifier Key_Q "Shift+Q" Difficulty.kAdvanced,
   TrainingItem.MakeCombo ShiftModifier Key_W "Shift+W" Difficulty.kAdvanced,
   TrainingItem.MakeCombo ShiftModifier Key_E "Shift+E" Difficulty.kAdvanced,
   TrainingItem.MakeCombo ShiftModifier Key_R "Shift+R" Difficulty.kAdvanced,
   TrainingItem.MakeCombo ShiftModifier Key_A "Shift+A" Difficulty.kAdvanced,
   TrainingItem.MakeCombo ShiftModifier Key_S "Shift+S" Difficulty.kAdvanced,
   TrainingItem.MakeCombo AltModifier Key_F1 "Alt+F1" Difficulty.kAdvanced,
   TrainingItem.MakeCombo AltModifier Key_F2 "Alt+F2" Difficulty.kAdvanced,
   TrainingItem.MakeCombo AltModifier Key_F3 "Alt+F3" Difficulty.kAdvanced,
   TrainingItem.MakeCombo AltModifier Key_F4 "Alt+F4" Difficulty.kAdvanced] ++
  (["1a", "2a", "3a", "1s", "2s", "3s", "1d", "2d", "3d", "1q", "2q", "3q"].map
    (fun sq => TrainingItem.MakeSequence sq.toList Difficulty.kIntermediate)) ++
  (["1aa", "2aa", "3aa", "1ss", "2ss", "3ss", "1qqqq", "2ww", "3ee",
    "qwer", "asdf", "zxcv", "wasd", "1a2a", "1s2s", "4sd", "5vv", "1a2a3a",
    "qqqq", "aaaa", "ssss", "1234", "5432", "qwert", "asdfg", "zxcvb"].map
    (fun sq => TrainingItem.MakeSequence sq.toList Difficulty.kAdvanced))

/-- A freshly constructed window before any session: the constructor's
    member initializers (trainer_window.h:150-177) with settings fields
    taken as parameters (LoadSettings overwrites them from the store). -/
def initialState (allItems : List TrainingItem) (diff : Difficulty)
    (mode : TrainingMode) (timeLimit targetR : Nat) : TrainerState :=
  { all_items := allItems
    items := []
    current_index := -1
    sequence_pos := 0
    training := false
    paused := false
    rounds_total := 0
    rounds_correct := 0
    target_rounds := targetR
    time_limit_seconds := timeLimit
    remaining_seconds := 0
    difficulty := diff
    mode := mode
    custom_single_keys := true
    custom_special_keys := true
    custom_combos := true
    custom_sequences := true
    elapsed_valid := false
    since_restart := 0
    paused_elapsed := 0
    countdown_active := false
    history := []
    error_label := "" }
/-! ### Concrete states, items and traces used by the witness and
    counterexample theorems -/

def witnessRecord : SessionRecord :=
  { total_rounds := 1
    correct_rounds := 1
    duration_ms := 1000
    difficulty := Difficulty.kBeginner
    mode := TrainingMode.kEndless }

def zenStopState : TrainerState :=
  { initialState [] Difficulty.kBeginner TrainingMode.kZen 60 50 with
      rounds_total := 3, rounds_correct := 2 }

def endlessStopState : TrainerState :=
  { initialState [] Difficulty.kBeginner TrainingMode.kEndless 60 50 with
      rounds_total := 2, rounds_correct := 1, since_restart := 4000 }

def c10Item : TrainingItem :=
  TrainingItem.MakeSequence "qwer".toList Difficulty.kAdvanced

def c10State : TrainerState :=
  { initialState [] Difficulty.kAdvanced TrainingMode.kEndless 60 50 with
      items := [c10Item]
      current_index := 0
      training := true
      elapsed_valid := true }

def c10Event : KeyEvent := { key := 0x01000012, modifiers := 0, text := [] }

def c2Item : TrainingItem :=
  TrainingItem.MakeSequence "qwer".toList Difficulty.kAdvanced

def c2State : TrainerState :=
  { initialState [] Difficulty.kAdvanced TrainingMode.kEndless 60 50 with
      items := [c2Item]
      current_index := 0
      sequence_pos := 3
      rounds_total := 4
      rounds_correct := 2
      training := true
      elapsed_valid := true }

def c2EventR : KeyEvent := { key := Key_R, modifiers := 0, text := ['R'] }

def c3Item : TrainingItem :=
  TrainingItem.MakeCombo ControlModifier Key_S "Ctrl+S"
    Difficulty.kIntermediate

def c3State : TrainerState :=
  { initialState [] Difficulty.kIntermediate TrainingMode.kEndless 60 50 with
      items := [c3Item]
      current_index := 0
      rounds_total := 1
      rounds_correct := 1
      training := true
      elapsed_valid := true }

def c3EventMatch : KeyEvent :=
  { key := Key_S, modifiers := ControlModifier, text := [] }

def c3EventMismatch : KeyEvent :=
  { key := Key_S, modifiers := ControlModifier ||| ShiftModifier, text := [] }

def c4Item : TrainingItem :=
  TrainingItem.MakeCombo AltModifier Key_F4 "Alt+F4" Difficulty.kAdvanced

def c4State : TrainerState :=
  { initialState [] Difficulty.kAdvanced TrainingMode.kEndless 60 50 with
      items := [c4Item]
      current_index := 0
      rounds_total := 2
      rounds_correct := 1
      training := true
      elapsed_valid := true }

def c4KeyEvent : KeyEvent :=
  { key := Key_F4, modifiers := AltModifier, text := [] }

def c4OtherState : TrainerState :=
  { c4State with items := [c3Item] }

def c7State : TrainerState :=
  { initialState [] Difficulty.kIntermediate TrainingMode.kTimed 3 50 with
      items := [c3Item] }

/-- Session invariant for a Challenge session with target N: the correct
    count never exceeds N, a still-running session is strictly below N,
    and a stopped session is not paused. -/
def ChallengeInv (N : Nat) (s : TrainerState) : Prop :=
  s.mode = TrainingMode.kChallenge ∧ s.target_rounds = N ∧
  s.rounds_correct ≤ N ∧ (s.training = true → s.rounds_correct < N) ∧
  (s.training = false → s.paused = false)

def c6State : TrainerState :=
  { initialState [] Difficulty.kIntermediate TrainingMode.kChallenge 60 2 with
      items := [c3Item] }

def c6Trace : List Event :=
  [Event.key c3EventMatch 0, Event.key c3EventMatch 0]

def c1Start : TrainerState :=
  StartTraining 0
    { initialState [] Difficulty.kAdvanced TrainingMode.kEndless 60 50 with
        items := [c3Item] }

/-- The spec's worked example: run 5s, pause 5s, resume, run 5s. -/
def c1TraceOnePause : List Event :=
  [Event.advance 5000, Event.pauseClick, Event.advance 5000,
   Event.resumeClick, Event.advance 5000]

/-- Two pause/resume cycles: run 3s, pause, resume, run 4s, pause. -/
def c1TraceTwoPauses : List Event :=
  [Event.advance 3000, Event.pauseClick, Event.resumeClick,
   Event.advance 4000, Event.pauseClick]


/-! ### Field-preservation helper lemmas -/

lemma SaveSessionRecord_fields (s : TrainerState) :
    (SaveSessionRecord s).rounds_total = s.rounds_total ∧
    (SaveSessionRecord s).rounds_correct = s.rounds_correct ∧
    (SaveSessionRecord s).current_index = s.current_index ∧
    (SaveSessionRecord s).sequence_pos = s.sequence_pos ∧
    (SaveSessionRecord s).mode = s.mode ∧
    (SaveSessionRecord s).target_rounds = s.target_rounds ∧
    (SaveSessionRecord s).remaining_seconds = s.remaining_seconds := by
  simp [SaveSessionRecord]

@[simp] lemma StopTraining_rounds_total (s : TrainerState) :
    (StopTraining s).rounds_total = s.rounds_total := by
  unfold StopTraining
  dsimp only
  split <;> simp [SaveSessionRecord]

@[simp] lemma StopTraining_rounds_correct (s : TrainerState) :
    (StopTraining s).rounds_correct = s.rounds_correct := by
  unfold StopTraining
  dsimp only
  split <;> simp [SaveSessionRecord]

@[simp] lemma StopTraining_current_index (s : TrainerState) :
    (StopTraining s).current_index = s.current_index := by
  unfold StopTraining
  dsimp only
  split <;> simp [SaveSessionRecord]

@[simp] lemma StopTraining_sequence_pos (s : TrainerState) :
    (StopTraining s).sequence_pos = s.sequence_pos := by
  unfold StopTraining
  dsimp only
  split <;> simp [SaveSessionRecord]

@[simp] lemma StopTraining_mode (s : TrainerState) :
    (StopTraining s).mode = s.mode := by
  unfold StopTraining
  dsimp only
  split <;> simp [SaveSessionRecord]

@[simp] lemma StopTraining_target_rounds (s : TrainerState) :
    (StopTraining s).target_rounds = s.target_rounds := by
  unfold StopTraining
  dsimp only
  split <;> simp [SaveSessionRecord]

@[simp] lemma StopTraining_remaining_seconds (s : TrainerState) :
    (StopTraining s).remaining_seconds = s.remaining_seconds := by
  unfold StopTraining
  dsimp only
  split <;> simp [SaveSessionRecord]

@[simp] lemma StopTraining_training (s : TrainerState) :
    (StopTraining s).training = false := rfl

@[simp] lemma StopTraining_paused (s : TrainerState) :
    (StopTraining s).paused = false := rfl

@[simp] lemma StopTraining_error_label (s : TrainerState) :
    (StopTraining s).error_label = "" := rfl

/-- The condition of the working-set validity guard in keyPressEvent is
    false whenever the current index is in range. -/
lemma items_guard_false (s : TrainerState) (hidx : 0 ≤ s.current_index)
    (hlen : s.current_index < (s.items.length : Int)) :
    ¬(s.items.isEmpty = true ∨ s.current_index < 0 ∨
        (s.items.length : Int) ≤ s.current_index) := by
  have h0 : ¬s.current_index < 0 := by omega
  have h1 : ¬(s.items.length : Int) ≤ s.current_index := by omega
  have h2 : s.items.isEmpty = false := by
    cases hne : s.items with
    | nil =>
        rw [hne] at hlen
        simp at hlen
        omega
    | cons a l => rfl
  simp [h0, h1, h2]

/-! ### C5: the difficulty filter never yields an empty working set -/

/-- C5: for every difficulty setting and every combination of the custom
    category toggles, FilterItemsByDifficulty applied to a state with a
    non-empty catalog produces a non-empty working set (the empty-result
    fallback substitutes the full catalog). -/
theorem FilterItemsByDifficulty_never_empty (s : TrainerState)
    (h : s.all_items ≠ []) : (FilterItemsByDifficulty s).items ≠ [] := by
  unfold FilterItemsByDifficulty
  dsimp only
  split
  · simpa using h
  · next hne =>
      intro hempty
      apply hne
      have hh : List.filter (itemIncluded s.difficulty s.custom_single_keys
          s.custom_special_keys s.custom_combos s.custom_sequences)
          s.all_items = [] := hempty
      rw [hh]
      rfl

/-- Witness for C5 at the real catalog with difficulty Custom and all four
    category toggles off, the configuration that forces the fallback. -/
theorem FilterItemsByDifficulty_never_empty_witness :
    InitAllTrainingItems ≠ [] ∧
    (FilterItemsByDifficulty
      { initialState InitAllTrainingItems Difficulty.kCustom
          TrainingMode.kEndless 60 50 with
          custom_single_keys := false
          custom_special_keys := false
          custom_combos := false
          custom_sequences := false }).items ≠ [] :=
  ⟨by simp [InitAllTrainingItems],
   FilterItemsByDifficulty_never_empty _
     (by simp [initialState, InitAllTrainingItems])⟩

/-! ### C9: history append caps the history at 100, most recent first -/

lemma take_absorb (l m : List SessionRecord) (n : Nat) :
    (l ++ m.take n).take n = (l ++ m).take n := by
  rw [List.take_append_eq_append_take, List.take_append_eq_append_take,
      List.take_take, Nat.min_eq_left (Nat.sub_le n l.length)]

lemma foldl_appendHistory (rs : List SessionRecord) :
    ∀ h : List SessionRecord, h.length ≤ kMaxHistoryRecords →
      List.foldl appendHistory h rs =
        (rs.reverse ++ h).take kMaxHistoryRecords := by
  induction rs with
  | nil =>
      intro h hh
      simpa using (List.take_of_length_le hh).symm
  | cons r rs ih =>
      intro h hh
      have hlen : (appendHistory h r).length ≤ kMaxHistoryRecords := by
        simp [appendHistory]
      calc List.foldl appendHistory h (r :: rs)
          = List.foldl appendHistory (appendHistory h r) rs := rfl
        _ = (rs.reverse ++ (r :: h).take kMaxHistoryRecords).take
              kMaxHistoryRecords := ih _ hlen
        _ = (rs.reverse ++ (r :: h)).take kMaxHistoryRecords :=
              take_absorb _ _ _
        _ = ((r :: rs).reverse ++ h).take kMaxHistoryRecords := by
              simp

/-- C9: appending prepends the record and truncates to the 100 most recent
    entries, so every append leaves at most 100 records, and appending 101
    records to an empty history leaves exactly the 100 most recent in
    most-recent-first order. -/
theorem appendHistory_spec :
    (∀ (h : List SessionRecord) (r : SessionRecord),
        (appendHistory h r).length ≤ 100) ∧
    (∀ rs : List SessionRecord, rs.length = 101 →
        List.foldl appendHistory [] rs = rs.reverse.take 100 ∧
        (List.foldl appendHistory [] rs).length = 100) := by
  constructor
  · intro h r
    simp [appendHistory, kMaxHistoryRecords]
  · intro rs h101
    have hfold := foldl_appendHistory rs [] (by simp)
    rw [List.append_nil] at hfold
    refine ⟨hfold, ?_⟩
    rw [hfold]
    simp [kMaxHistoryRecords, h101]

/-- Witness for C9 on a concrete list of 101 records. -/
theorem appendHistory_spec_witness :
    (List.replicate 101 witnessRecord).length = 101 ∧
    (List.foldl appendHistory [] (List.replicate 101 witnessRecord) =
        (List.replicate 101 witnessRecord).reverse.take 100 ∧
      (List.foldl appendHistory []
        (List.replicate 101 witnessRecord)).length = 100) :=
  ⟨by simp, appendHistory_spec.2 _ (by simp)⟩

/-! ### C8: a SessionRecord is emitted exactly when roundsTotal > 0 and
    the mode is not Zen -/

/-- C8: on stop, the history is unchanged when the mode is Zen or no round
    was played; otherwise exactly one record carrying the session's
    totals, correct count, duration, difficulty and mode is prepended, the
    rest of the history surviving as the 99 most recent old entries. -/
theorem StopTraining_history_spec (s : TrainerState) :
    ((s.mode = TrainingMode.kZen ∨ s.rounds_total = 0) →
        (StopTraining s).history = s.history) ∧
    (s.mode ≠ TrainingMode.kZen → 0 < s.rounds_total →
        (StopTraining s).history.head? =
          some { total_rounds := s.rounds_total
                 correct_rounds := s.rounds_correct
                 duration_ms := s.since_restart + s.paused_elapsed
                 difficulty := s.difficulty
                 mode := s.mode } ∧
        (StopTraining s).history.tail = s.history.take 99) := by
  constructor
  · intro h
    unfold StopTraining
    dsimp only
    split
    · next hcond =>
        rcases h with h | h
        · exact absurd h hcond.2
        · omega
    · rfl
  · intro hz hr
    have hist : (StopTraining s).history =
        sessionRecordOf s :: s.history.take 99 := by
      unfold StopTraining
      dsimp only
      split
      · simp [SaveSessionRecord, appendHistory, kMaxHistoryRecords,
          sessionRecordOf, List.take_succ_cons]
      · next hcond =>
          exact absurd ⟨hr, hz⟩ hcond
    rw [hist]
    exact ⟨rfl, rfl⟩

/-- Witness for C8: a Zen session with rounds appends nothing; an Endless
    session with rounds appends exactly its record. -/
theorem StopTraining_history_spec_witness :
    (StopTraining zenStopState).history = zenStopState.history ∧
    ((StopTraining endlessStopState).history.head? =
        some { total_rounds := endlessStopState.rounds_total
               correct_rounds := endlessStopState.rounds_correct
               duration_ms := endlessStopState.since_restart +
                 endlessStopState.paused_elapsed
               difficulty := endlessStopState.difficulty
               mode := endlessStopState.mode } ∧
      (StopTraining endlessStopState).history.tail =
        endlessStopState.history.take 99) :=
  ⟨(StopTraining_history_spec zenStopState).1 (Or.inl rfl),
   (StopTraining_history_spec endlessStopState).2 (by decide) (by decide)⟩

/-! ### NextItem / checkChallenge field lemmas -/

@[simp] lemma NextItem_rounds_total (rand : Nat) (s : TrainerState) :
    (NextItem rand s).rounds_total = s.rounds_total := by
  unfold NextItem
  split <;> rfl

@[simp] lemma NextItem_rounds_correct (rand : Nat) (s : TrainerState) :
    (NextItem rand s).rounds_correct = s.rounds_correct := by
  unfold NextItem
  split <;> rfl

@[simp] lemma NextItem_training (rand : Nat) (s : TrainerState) :
    (NextItem rand s).training = s.training := by
  unfold NextItem
  split <;> rfl

@[simp] lemma NextItem_paused (rand : Nat) (s : TrainerState) :
    (NextItem rand s).paused = s.paused := by
  unfold NextItem
  split <;> rfl

@[simp] lemma NextItem_mode (rand : Nat) (s : TrainerState) :
    (NextItem rand s).mode = s.mode := by
  unfold NextItem
  split <;> rfl

@[simp] lemma NextItem_target_rounds (rand : Nat) (s : TrainerState) :
    (NextItem rand s).target_rounds = s.target_rounds := by
  unfold NextItem
  split <;> rfl

@[simp] lemma NextItem_items (rand : Nat) (s : TrainerState) :
    (NextItem rand s).items = s.items := by
  unfold NextItem
  split <;> rfl

@[simp] lemma NextItem_remaining_seconds (rand : Nat) (s : TrainerState) :
    (NextItem rand s).remaining_seconds = s.remaining_seconds := by
  unfold NextItem
  split <;> rfl

lemma NextItem_of_ne_nil (rand : Nat) (s : TrainerState) (h : s.items ≠ []) :
    (NextItem rand s).current_index = Int.ofNat (rand % s.items.length) ∧
    (NextItem rand s).sequence_pos = 0 := by
  unfold NextItem
  split
  · next he => exact absurd (by simpa using he) h
  · exact ⟨rfl, rfl⟩

@[simp] lemma checkChallenge_rounds_total (s : TrainerState) :
    (checkChallenge s).rounds_total = s.rounds_total := by
  unfold checkChallenge
  split <;> simp

@[simp] lemma checkChallenge_rounds_correct (s : TrainerState) :
    (checkChallenge s).rounds_correct = s.rounds_correct := by
  unfold checkChallenge
  split <;> simp

@[simp] lemma checkChallenge_current_index (s : TrainerState) :
    (checkChallenge s).current_index = s.current_index := by
  unfold checkChallenge
  split <;> simp

@[simp] lemma checkChallenge_sequence_pos (s : TrainerState) :
    (checkChallenge s).sequence_pos = s.sequence_pos := by
  unfold checkChallenge
  split <;> simp

@[simp] lemma checkChallenge_mode (s : TrainerState) :
    (checkChallenge s).mode = s.mode := by
  unfold checkChallenge
  split <;> simp

@[simp] lemma checkChallenge_target_rounds (s : TrainerState) :
    (checkChallenge s).target_rounds = s.target_rounds := by
  unfold checkChallenge
  split <;> simp

lemma checkChallenge_error_label (s : TrainerState) :
    (checkChallenge s).error_label = s.error_label ∨
    (checkChallenge s).error_label = "" := by
  unfold checkChallenge
  split
  · exact Or.inr (by simp)
  · exact Or.inl rfl

/-! ### C10: empty-text key events are ignored for SingleKey and Sequence
    items -/

/-- C10: while a session is Running and not paused with a SingleKey or
    Sequence item current, a key event whose produced text is empty leaves
    roundsTotal, roundsCorrect, sequenceProgress and the current item
    unchanged and produces no error message (the error label is either
    untouched or cleared, never set). -/
theorem keyPressEvent_empty_text (s : TrainerState) (ev : KeyEvent)
    (rand : Nat) (item : TrainingItem)
    (htr : s.training = true) (hp : s.paused = false)
    (hidx : 0 ≤ s.current_index)
    (hlen : s.current_index < (s.items.length : Int))
    (hi : s.items.get? s.current_index.toNat = some item)
    (hty : item.type = TrainingType.kSingleKey ∨
           item.type = TrainingType.kSequence)
    (htext : ev.text = []) :
    (keyPressEvent ev rand s).rounds_total = s.rounds_total ∧
    (keyPressEvent ev rand s).rounds_correct = s.rounds_correct ∧
    (keyPressEvent ev rand s).sequence_pos = s.sequence_pos ∧
    (keyPressEvent ev rand s).current_index = s.current_index ∧
    ((keyPressEvent ev rand s).error_label = s.error_label ∨
     (keyPressEvent ev rand s).error_label = "") := by
  have hguard := items_guard_false s hidx hlen
  unfold keyPressEvent
  have c1 : ¬(s.paused = true ∧ ev.key = Key_Space) := by simp [hp]
  rw [if_neg c1]
  have c2 : ¬(¬s.training = true ∨ s.paused = true) := by simp [hp, htr]
  rw [if_neg c2, if_neg hguard]
  by_cases c4 : ev.key = Key_Shift ∨ ev.key = Key_Control ∨
      ev.key = Key_Alt ∨ ev.key = Key_Meta
  · rw [if_pos c4]
    exact ⟨rfl, rfl, rfl, rfl, Or.inl rfl⟩
  · rw [if_neg c4]
    by_cases c5 : ev.key = Key_Escape
    · rw [if_pos c5]
      exact ⟨by simp, by simp, by simp, by simp, Or.inr (by simp)⟩
    · rw [if_neg c5, hi]
      dsimp only
      rcases hty with h | h <;> rw [h] <;> dsimp only
      · unfold handleSingleKey
        rw [htext]
        dsimp only [List.map_nil]
        exact ⟨rfl, rfl, rfl, rfl, Or.inl rfl⟩
      · unfold handleSequence
        rw [htext]
        dsimp only [List.map_nil]
        exact ⟨rfl, rfl, rfl, rfl, Or.inl rfl⟩

/-- Witness for C10: a navigation key producing no text, sent at a running
    session whose current item is the sequence "qwer". -/
theorem keyPressEvent_empty_text_witness :
    c10Item.type = TrainingType.kSequence ∧
    ((keyPressEvent c10Event 0 c10State).rounds_total =
        c10State.rounds_total ∧
     (keyPressEvent c10Event 0 c10State).rounds_correct =
        c10State.rounds_correct ∧
     (keyPressEvent c10Event 0 c10State).sequence_pos =
        c10State.sequence_pos ∧
     (keyPressEvent c10Event 0 c10State).current_index =
        c10State.current_index ∧
     ((keyPressEvent c10Event 0 c10State).error_label =
        c10State.error_label ∨
      (keyPressEvent c10Event 0 c10State).error_label = "")) :=
  ⟨rfl, keyPressEvent_empty_text c10State c10Event 0 c10Item rfl rfl
    (by decide) (by decide) rfl (Or.inr rfl) rfl⟩

/-- Under the Running/not-paused guards, a non-modifier, non-Escape key
    event reaches the per-kind dispatch of keyPressEvent. -/
lemma keyPressEvent_eq_handler (s : TrainerState) (ev : KeyEvent)
    (rand : Nat) (item : TrainingItem)
    (htr : s.training = true) (hp : s.paused = false)
    (hidx : 0 ≤ s.current_index)
    (hlen : s.current_index < (s.items.length : Int))
    (hi : s.items.get? s.current_index.toNat = some item)
    (hmods : ¬(ev.key = Key_Shift ∨ ev.key = Key_Control ∨
        ev.key = Key_Alt ∨ ev.key = Key_Meta))
    (hesc : ¬ev.key = Key_Escape) :
    keyPressEvent ev rand s =
      (match item.type with
       | TrainingType.kSingleKey => handleSingleKey item ev rand s
       | TrainingType.kCombo => handleCombo item ev rand s
       | TrainingType.kSpecialKey => handleSpecialKey item ev rand s
       | TrainingType.kSequence => handleSequence item ev rand s) := by
  have hguard := items_guard_false s hidx hlen
  unfold keyPressEvent
  have c1 : ¬(s.paused = true ∧ ev.key = Key_Space) := by simp [hp]
  have c2 : ¬(¬s.training = true ∨ s.paused = true) := by simp [hp, htr]
  rw [if_neg c1, if_neg c2, if_neg hguard, if_neg hmods, if_neg hesc, hi]

lemma items_ne_nil_of_index (s : TrainerState) (hidx : 0 ≤ s.current_index)
    (hlen : s.current_index < (s.items.length : Int)) : s.items ≠ [] := by
  intro hnil
  rw [hnil] at hlen
  simp at hlen
  omega

/-! ### C2: Sequence-item processing -/

/-- C2: for a Sequence item processed while Running and not paused, a key
    whose first produced (lowercased) character equals
    sequence[sequenceProgress] increments sequenceProgress; when it
    reaches the sequence length, exactly one correct round is counted
    (roundsTotal and roundsCorrect each +1), progress resets to 0 and a
    new item is selected; a mismatching key counts exactly one failed
    attempt (roundsTotal +1, roundsCorrect unchanged), resets
    sequenceProgress to 0 and leaves the item current. -/
theorem sequence_item_step (s : TrainerState) (ev : KeyEvent) (rand : Nat)
    (item : TrainingItem) (c : Char) (rest : List Char)
    (htr : s.training = true) (hp : s.paused = false)
    (hidx : 0 ≤ s.current_index)
    (hlen : s.current_index < (s.items.length : Int))
    (hi : s.items.get? s.current_index.toNat = some item)
    (hty : item.type = TrainingType.kSequence)
    (hmods : ¬(ev.key = Key_Shift ∨ ev.key = Key_Control ∨
        ev.key = Key_Alt ∨ ev.key = Key_Meta))
    (hesc : ¬ev.key = Key_Escape)
    (htext : ev.text.map Char.toLower = c :: rest)
    (hpos : s.sequence_pos < item.sequence.length) :
    (c = item.sequence.getD s.sequence_pos (Char.ofNat 0) ∧
        s.sequence_pos + 1 < item.sequence.length →
      (keyPressEvent ev rand s).sequence_pos = s.sequence_pos + 1 ∧
      (keyPressEvent ev rand s).rounds_total = s.rounds_total ∧
      (keyPressEvent ev rand s).rounds_correct = s.rounds_correct ∧
      (keyPressEvent ev rand s).current_index = s.current_index) ∧
    (c = item.sequence.getD s.sequence_pos (Char.ofNat 0) ∧
        s.sequence_pos + 1 = item.sequence.length →
      (keyPressEvent ev rand s).rounds_total = s.rounds_total + 1 ∧
      (keyPressEvent ev rand s).rounds_correct = s.rounds_correct + 1 ∧
      (keyPressEvent ev rand s).sequence_pos = 0 ∧
      (keyPressEvent ev rand s).current_index =
        Int.ofNat (rand % s.items.length)) ∧
    (¬c = item.sequence.getD s.sequence_pos (Char.ofNat 0) →
      (keyPressEvent ev rand s).rounds_total = s.rounds_total + 1 ∧
      (keyPressEvent ev rand s).rounds_correct = s.rounds_correct ∧
      (keyPressEvent ev rand s).sequence_pos = 0 ∧
      (keyPressEvent ev rand s).current_index = s.current_index) := by
  have hitems := items_ne_nil_of_index s hidx hlen
  have hk := keyPressEvent_eq_handler s ev rand item htr hp hidx hlen hi
    hmods hesc
  rw [hty] at hk
  rw [hk]
  unfold handleSequence
  rw [htext]
  dsimp only
  have hseqne : ¬(item.sequence.isEmpty = true) := by
    intro hh
    rw [List.isEmpty_iff] at hh
    rw [hh] at hpos
    simp at hpos
  rw [if_neg hseqne]
  rw [if_neg (by omega : ¬item.sequence.length ≤ s.sequence_pos)]
  by_cases hc : c = item.sequence.getD s.sequence_pos (Char.ofNat 0)
  · rw [if_pos hc]
    by_cases h2 : item.sequence.length ≤ s.sequence_pos + 1
    · rw [if_pos h2]
      have hnext := NextItem_of_ne_nil rand
        { s with rounds_total := s.rounds_total + 1
                 rounds_correct := s.rounds_correct + 1
                 error_label := "" } hitems
      refine ⟨fun hfirst => absurd hfirst.2 (by omega), fun _ => ?_,
        fun hmis => absurd hc hmis⟩
      refine ⟨by simp, by simp, ?_, ?_⟩
      · rw [checkChallenge_sequence_pos]
        exact hnext.2
      · rw [checkChallenge_current_index]
        exact hnext.1
    · rw [if_neg h2]
      refine ⟨fun _ => ⟨by simp, by simp, by simp, by simp⟩,
        fun hfull => absurd hfull.2 (by omega),
        fun hmis => absurd hc hmis⟩
  · rw [if_neg hc]
    refine ⟨fun hfirst => absurd hfirst.1 hc,
      fun hfull => absurd hfull.1 hc,
      fun _ => ⟨by simp, by simp, by simp, by simp⟩⟩

/-- Witness for C2: with item "qwer" at progress 3, typing 'R' (producing
    the lowercased character 'r') completes the round: one correct round
    counted, progress reset, a new item selected. -/
theorem sequence_item_step_witness :
    ('r' = c2Item.sequence.getD c2State.sequence_pos (Char.ofNat 0) ∧
      c2State.sequence_pos + 1 = c2Item.sequence.length) ∧
    ((keyPressEvent c2EventR 7 c2State).rounds_total =
        c2State.rounds_total + 1 ∧
     (keyPressEvent c2EventR 7 c2State).rounds_correct =
        c2State.rounds_correct + 1 ∧
     (keyPressEvent c2EventR 7 c2State).sequence_pos = 0 ∧
     (keyPressEvent c2EventR 7 c2State).current_index =
        Int.ofNat (7 % c2State.items.length)) :=
  ⟨⟨by decide, by decide⟩,
   (sequence_item_step c2State c2EventR 7 c2Item 'r' [] rfl rfl (by decide)
     (by decide) rfl rfl (by decide) (by decide) (by decide)
     (by decide)).2.1 ⟨by decide, by decide⟩⟩

/-! ### C3: Combo-item matching -/

/-- C3: for a Combo item other than the close-intent (Alt+F4) combo,
    a key event processed while Running matches exactly when its key code
    equals the item's keyCode and its modifiers masked to
    Control/Shift/Alt/Meta equal the item's modifierSet; a match counts a
    correct round and advances to a new item, a non-match records a failed
    attempt and keeps the item current. -/
theorem combo_item_step (s : TrainerState) (ev : KeyEvent) (rand : Nat)
    (item : TrainingItem)
    (htr : s.training = true) (hp : s.paused = false)
    (hidx : 0 ≤ s.current_index)
    (hlen : s.current_index < (s.items.length : Int))
    (hi : s.items.get? s.current_index.toNat = some item)
    (hty : item.type = TrainingType.kCombo)
    (hnot4 : ¬(item.key = Key_F4 ∧ item.modifiers &&& AltModifier ≠ 0))
    (hmods : ¬(ev.key = Key_Shift ∨ ev.key = Key_Control ∨
        ev.key = Key_Alt ∨ ev.key = Key_Meta))
    (hesc : ¬ev.key = Key_Escape) :
    (ev.key = item.key ∧
        ev.modifiers &&& relevantModifierMask = item.modifiers →
      (keyPressEvent ev rand s).rounds_total = s.rounds_total + 1 ∧
      (keyPressEvent ev rand s).rounds_correct = s.rounds_correct + 1 ∧
      (keyPressEvent ev rand s).current_index =
        Int.ofNat (rand % s.items.length) ∧
      (keyPressEvent ev rand s).sequence_pos = 0) ∧
    (¬(ev.key = item.key ∧
        ev.modifiers &&& relevantModifierMask = item.modifiers) →
      (keyPressEvent ev rand s).rounds_total = s.rounds_total + 1 ∧
      (keyPressEvent ev rand s).rounds_correct = s.rounds_correct ∧
      (keyPressEvent ev rand s).current_index = s.current_index) := by
  have hitems := items_ne_nil_of_index s hidx hlen
  have hk := keyPressEvent_eq_handler s ev rand item htr hp hidx hlen hi
    hmods hesc
  rw [hty] at hk
  rw [hk]
  unfold handleCombo
  have halt : ¬(IsCurrentItemAltF4 s = true) := by
    unfold IsCurrentItemAltF4
    have hcond : ¬(¬s.training = true ∨ s.current_index < 0 ∨
        (s.items.length : Int) ≤ s.current_index) := by
      push_neg
      exact ⟨by simp [htr], by omega, by omega⟩
    rw [if_neg hcond, hi]
    have hor : ¬item.key = Key_F4 ∨ item.modifiers &&& AltModifier = 0 := by
      by_cases hk4 : item.key = Key_F4
      · right
        by_contra hz
        exact hnot4 ⟨hk4, hz⟩
      · left
        exact hk4
    rcases hor with h | h <;> simp [h]
  rw [if_neg halt]
  dsimp only
  by_cases hmatch : ev.key = item.key ∧
      ev.modifiers &&& relevantModifierMask = item.modifiers
  · rw [if_pos hmatch]
    have hnext := NextItem_of_ne_nil rand
      { s with rounds_total := s.rounds_total + 1
               rounds_correct := s.rounds_correct + 1
               error_label := "" } hitems
    refine ⟨fun _ => ⟨by simp, by simp, ?_, ?_⟩,
      fun hno => absurd hmatch hno⟩
    · rw [checkChallenge_current_index]
      exact hnext.1
    · rw [checkChallenge_sequence_pos]
      exact hnext.2
  · rw [if_neg hmatch]
    exact ⟨fun hyes => absurd hyes hmatch,
      fun _ => ⟨by simp, by simp, by simp⟩⟩

/-- Witness for C3 on the Ctrl+S item: the event {S, Control} matches and
    counts a correct round; the event {S, Control+Shift} does not match
    and records a failed attempt with the item kept current. -/
theorem combo_item_step_witness :
    (c3EventMatch.key = c3Item.key ∧
      c3EventMatch.modifiers &&& relevantModifierMask = c3Item.modifiers) ∧
    ((keyPressEvent c3EventMatch 0 c3State).rounds_total =
        c3State.rounds_total + 1 ∧
     (keyPressEvent c3EventMatch 0 c3State).rounds_correct =
        c3State.rounds_correct + 1 ∧
     (keyPressEvent c3EventMatch 0 c3State).current_index =
        Int.ofNat (0 % c3State.items.length) ∧
     (keyPressEvent c3EventMatch 0 c3State).sequence_pos = 0) ∧
    ¬(c3EventMismatch.key = c3Item.key ∧
      c3EventMismatch.modifiers &&& relevantModifierMask =
        c3Item.modifiers) ∧
    ((keyPressEvent c3EventMismatch 0 c3State).rounds_total =
        c3State.rounds_total + 1 ∧
     (keyPressEvent c3EventMismatch 0 c3State).rounds_correct =
        c3State.rounds_correct ∧
     (keyPressEvent c3EventMismatch 0 c3State).current_index =
        c3State.current_index) :=
  ⟨⟨by decide, by decide⟩,
   (combo_item_step c3State c3EventMatch 0 c3Item rfl rfl (by decide)
     (by decide) rfl rfl (by decide) (by decide) (by decide)).1
     ⟨by decide, by decide⟩,
   by decide,
   (combo_item_step c3State c3EventMismatch 0 c3Item rfl rfl (by decide)
     (by decide) rfl rfl (by decide) (by decide) (by decide)).2
     (by decide)⟩

/-! ### C4: the close-intent combo (Alt+F4) -/

lemma IsCurrentItemAltF4_spec (s : TrainerState)
    (h : IsCurrentItemAltF4 s = true) :
    0 ≤ s.current_index ∧ s.current_index < (s.items.length : Int) ∧
    ∃ item, s.items.get? s.current_index.toNat = some item ∧
      item.type = TrainingType.kCombo := by
  unfold IsCurrentItemAltF4 at h
  by_cases hcond : (¬s.training = true ∨ s.current_index < 0 ∨
      (s.items.length : Int) ≤ s.current_index)
  · rw [if_pos hcond] at h
    cases h
  · rw [if_neg hcond] at h
    push_neg at hcond
    obtain ⟨_, h2, h3⟩ := hcond
    cases hg : s.items.get? s.current_index.toNat with
    | none =>
        rw [hg] at h
        cases h
    | some item =>
        rw [hg] at h
        simp only [Bool.and_eq_true, decide_eq_true_eq] at h
        exact ⟨by omega, by omega, item, rfl, h.1.1⟩

lemma keyPressEvent_eq_of_modifier (s : TrainerState) (ev : KeyEvent)
    (rand : Nat) (htr : s.training = true) (hp : s.paused = false)
    (hmods : ev.key = Key_Shift ∨ ev.key = Key_Control ∨
        ev.key = Key_Alt ∨ ev.key = Key_Meta) :
    keyPressEvent ev rand s = s := by
  unfold keyPressEvent
  have c1 : ¬(s.paused = true ∧ ev.key = Key_Space) := by simp [hp]
  have c2 : ¬(¬s.training = true ∨ s.paused = true) := by simp [hp, htr]
  rw [if_neg c1, if_neg c2]
  by_cases c3 : (s.items.isEmpty = true ∨ s.current_index < 0 ∨
      (s.items.length : Int) ≤ s.current_index)
  · rw [if_pos c3]
  · rw [if_neg c3, if_pos hmods]

lemma keyPressEvent_eq_of_escape (s : TrainerState) (ev : KeyEvent)
    (rand : Nat) (htr : s.training = true) (hp : s.paused = false)
    (hidx : 0 ≤ s.current_index)
    (hlen : s.current_index < (s.items.length : Int))
    (hmods : ¬(ev.key = Key_Shift ∨ ev.key = Key_Control ∨
        ev.key = Key_Alt ∨ ev.key = Key_Meta))
    (hesc : ev.key = Key_Escape) :
    keyPressEvent ev rand s = StopTraining s := by
  have hguard := items_guard_false s hidx hlen
  unfold keyPressEvent
  have c1 : ¬(s.paused = true ∧ ev.key = Key_Space) := by simp [hp]
  have c2 : ¬(¬s.training = true ∨ s.paused = true) := by simp [hp, htr]
  rw [if_neg c1, if_neg c2, if_neg hguard, if_neg hmods, if_pos hesc]

/-- C4: while the current item is the close-intent (Alt+F4) combo, its
    ordinary key events never change roundsTotal, roundsCorrect or the
    current item; a window-close request during an active session with
    that item current is treated as a correct match (both counters +1, a
    new item selected) and the close is suppressed; any other close
    request during an active session is suppressed with a warning and
    changes no counter. -/
theorem altf4_close_intent (s : TrainerState) (rand : Nat)
    (htr : s.training = true) (hp : s.paused = false) :
    (IsCurrentItemAltF4 s = true →
      (∀ (ev : KeyEvent) (r : Nat),
        (keyPressEvent ev r s).rounds_total = s.rounds_total ∧
        (keyPressEvent ev r s).rounds_correct = s.rounds_correct ∧
        (keyPressEvent ev r s).current_index = s.current_index) ∧
      ((closeEvent rand s).2 = false ∧
       (closeEvent rand s).1.rounds_total = s.rounds_total + 1 ∧
       (closeEvent rand s).1.rounds_correct = s.rounds_correct + 1 ∧
       (closeEvent rand s).1.current_index =
         Int.ofNat (rand % s.items.length))) ∧
    (IsCurrentItemAltF4 s = false →
      (closeEvent rand s).2 = false ∧
      (closeEvent rand s).1.rounds_total = s.rounds_total ∧
      (closeEvent rand s).1.rounds_correct = s.rounds_correct ∧
      (closeEvent rand s).1.error_label = closeBlockedText) := by
  constructor
  · intro h4
    obtain ⟨hidx, hlen, item, hi, hty⟩ := IsCurrentItemAltF4_spec s h4
    have hitems := items_ne_nil_of_index s hidx hlen
    constructor
    · intro ev r
      by_cases hmods : (ev.key = Key_Shift ∨ ev.key = Key_Control ∨
          ev.key = Key_Alt ∨ ev.key = Key_Meta)
      · rw [keyPressEvent_eq_of_modifier s ev r htr hp hmods]
        exact ⟨rfl, rfl, rfl⟩
      · by_cases hesc : ev.key = Key_Escape
        · rw [keyPressEvent_eq_of_escape s ev r htr hp hidx hlen hmods hesc]
          exact ⟨by simp, by simp, by simp⟩
        · rw [keyPressEvent_eq_handler s ev r item htr hp hidx hlen hi
            hmods hesc]
          rw [hty]
          dsimp only
          unfold handleCombo
          rw [if_pos h4]
          exact ⟨rfl, rfl, rfl⟩
    · unfold closeEvent
      rw [if_pos htr, if_pos h4]
      have hnext := NextItem_of_ne_nil rand
        { s with rounds_total := s.rounds_total + 1
                 rounds_correct := s.rounds_correct + 1
                 error_label := "" } hitems
      refine ⟨rfl, by simp, by simp, ?_⟩
      dsimp only
      rw [checkChallenge_current_index]
      exact hnext.1
  · intro h4
    have h4' : ¬(IsCurrentItemAltF4 s = true) := by simp [h4]
    unfold closeEvent
    rw [if_pos htr, if_neg h4']
    exact ⟨rfl, rfl, rfl, rfl⟩

/-- Witness for C4: with the Alt+F4 item current, its own key event
    changes no counter, while a close request counts a correct round and
    is suppressed; with another item current, a close request is blocked
    with a warning. -/
theorem altf4_close_intent_witness :
    IsCurrentItemAltF4 c4State = true ∧
    ((keyPressEvent c4KeyEvent 0 c4State).rounds_total =
        c4State.rounds_total ∧
     (keyPressEvent c4KeyEvent 0 c4State).rounds_correct =
        c4State.rounds_correct ∧
     (keyPressEvent c4KeyEvent 0 c4State).current_index =
        c4State.current_index) ∧
    ((closeEvent 0 c4State).2 = false ∧
     (closeEvent 0 c4State).1.rounds_total = c4State.rounds_total + 1 ∧
     (closeEvent 0 c4State).1.rounds_correct =
        c4State.rounds_correct + 1 ∧
     (closeEvent 0 c4State).1.current_index =
        Int.ofNat (0 % c4State.items.length)) ∧
    ((closeEvent 0 c4OtherState).2 = false ∧
     (closeEvent 0 c4OtherState).1.rounds_total =
        c4OtherState.rounds_total ∧
     (closeEvent 0 c4OtherState).1.rounds_correct =
        c4OtherState.rounds_correct ∧
     (closeEvent 0 c4OtherState).1.error_label = closeBlockedText) :=
  ⟨by decide,
   ((altf4_close_intent c4State 0 rfl rfl).1 (by decide)).1 c4KeyEvent 0,
   ((altf4_close_intent c4State 0 rfl rfl).1 (by decide)).2,
   (altf4_close_intent c4OtherState 0 rfl rfl).2 (by decide)⟩

/-! ### C7: Timed-mode countdown -/

lemma OnTimerTick_inert (s : TrainerState)
    (h : s.training = false ∨ s.paused = true) : OnTimerTick s = s := by
  unfold OnTimerTick
  have hc : ¬s.training = true ∨ s.paused = true := by
    rcases h with h | h
    · left
      simp [h]
    · right
      exact h
  rw [if_pos hc]

lemma OnTimerTick_timed_running (s : TrainerState)
    (htr : s.training = true) (hp : s.paused = false)
    (hm : s.mode = TrainingMode.kTimed) :
    (OnTimerTick s).remaining_seconds = s.remaining_seconds - 1 ∧
    (s.remaining_seconds - 1 ≤ 0 → (OnTimerTick s).training = false) ∧
    (¬(s.remaining_seconds - 1 ≤ 0) →
      OnTimerTick s = { s with
        remaining_seconds := s.remaining_seconds - 1 }) := by
  unfold OnTimerTick
  have hc : ¬(¬s.training = true ∨ s.paused = true) := by simp [htr, hp]
  rw [if_neg hc, if_pos hm]
  dsimp only
  by_cases hstop : s.remaining_seconds - 1 ≤ 0
  · rw [if_pos hstop]
    exact ⟨by simp, fun _ => by simp, fun hno => absurd hstop hno⟩
  · rw [if_neg hstop]
    exact ⟨rfl, fun hyes => absurd hyes hstop, fun _ => rfl⟩

lemma run_tick_cons (s : TrainerState) (es : List Event) :
    run s (Event.tick :: es) = run (OnTimerTick s) es := rfl

lemma timed_ticks_stop (n : Nat) :
    ∀ s : TrainerState, s.training = true → s.paused = false →
      s.mode = TrainingMode.kTimed → 0 < n →
      s.remaining_seconds = (n : Int) →
      (run s (List.replicate n Event.tick)).training = false ∧
      (run s (List.replicate n Event.tick)).remaining_seconds = 0 := by
  induction n with
  | zero =>
      intro s _ _ _ h0 _
      omega
  | succ m ih =>
      intro s htr hp hm _ hrem
      rw [List.replicate_succ, run_tick_cons]
      obtain ⟨hdec, hstop, hcont⟩ := OnTimerTick_timed_running s htr hp hm
      by_cases hz : m = 0
      · subst hz
        have h1 : s.remaining_seconds - 1 ≤ 0 := by
          rw [hrem]
          omega
        have hfin : run (OnTimerTick s) (List.replicate 0 Event.tick) =
            OnTimerTick s := rfl
        rw [hfin]
        refine ⟨hstop h1, ?_⟩
        rw [hdec, hrem]
        omega
      · have hm0 : 0 < m := Nat.pos_of_ne_zero hz
        have hng : ¬(s.remaining_seconds - 1 ≤ 0) := by
          rw [hrem]
          omega
        rw [hcont hng]
        refine ih _ htr hp hm hm0 ?_
        show s.remaining_seconds - 1 = (m : Int)
        rw [hrem]
        omega

lemma StartTraining_fields (rand : Nat) (s : TrainerState)
    (hne : s.items ≠ []) :
    (StartTraining rand s).training = true ∧
    (StartTraining rand s).paused = false ∧
    (StartTraining rand s).mode = s.mode ∧
    (StartTraining rand s).target_rounds = s.target_rounds ∧
    (StartTraining rand s).rounds_total = 0 ∧
    (StartTraining rand s).rounds_correct = 0 := by
  have hbe : ¬(s.items.isEmpty = true) := by
    intro hh
    exact hne (List.isEmpty_iff.mp hh)
  unfold StartTraining
  dsimp only
  rw [if_neg hbe, if_neg hbe]
  cases hmode : s.mode <;> dsimp only <;>
    exact ⟨by simp, by simp, by simp, by simp, by simp, by simp⟩

lemma StartTraining_timed_remaining (rand : Nat) (s : TrainerState)
    (hne : s.items ≠ []) (hm : s.mode = TrainingMode.kTimed) :
    (StartTraining rand s).remaining_seconds =
      (s.time_limit_seconds : Int) := by
  have hbe : ¬(s.items.isEmpty = true) := by
    intro hh
    exact hne (List.isEmpty_iff.mp hh)
  unfold StartTraining
  dsimp only
  rw [if_neg hbe, if_neg hbe, hm]
  dsimp only
  simp

/-- C7: in Timed mode, each tick received while Running and not paused
    decrements remainingSeconds by 1; when the decremented value reaches 0
    the session is forced to Stopped; ticks delivered while Paused or with
    no active session change nothing; and a fresh Timed session with
    timeLimitSeconds = T is Stopped with remainingSeconds = 0 after T
    uninterrupted ticks. -/
theorem timed_mode_countdown (T rand : Nat) (s0 : TrainerState)
    (hT : 1 ≤ T) (hm : s0.mode = TrainingMode.kTimed)
    (hl : s0.time_limit_seconds = T) (hne : s0.items ≠ []) :
    (∀ s : TrainerState, s.training = true → s.paused = false →
        s.mode = TrainingMode.kTimed →
        (OnTimerTick s).remaining_seconds = s.remaining_seconds - 1) ∧
    (∀ s : TrainerState, s.training = true → s.paused = false →
        s.mode = TrainingMode.kTimed → s.remaining_seconds - 1 ≤ 0 →
        (OnTimerTick s).training = false) ∧
    (∀ s : TrainerState, s.training = false ∨ s.paused = true →
        OnTimerTick s = s) ∧
    (run (StartTraining rand s0)
        (List.replicate T Event.tick)).training = false ∧
    (run (StartTraining rand s0)
        (List.replicate T Event.tick)).remaining_seconds = 0 := by
  obtain ⟨h1, h2, h3, _, _, _⟩ := StartTraining_fields rand s0 hne
  have hrem := StartTraining_timed_remaining rand s0 hne hm
  have hticks := timed_ticks_stop T (StartTraining rand s0) h1 h2
    (by rw [h3]; exact hm) (by omega) (by rw [hrem, hl])
  exact ⟨fun s a b c => (OnTimerTick_timed_running s a b c).1,
    fun s a b c d => (OnTimerTick_timed_running s a b c).2.1 d,
    fun s h => OnTimerTick_inert s h, hticks.1, hticks.2⟩

/-- Witness for C7: a Timed session with a 3-second limit is Stopped with
    remainingSeconds = 0 after 3 ticks. -/
theorem timed_mode_countdown_witness :
    (1 : Nat) ≤ 3 ∧
    (run (StartTraining 0 c7State)
        (List.replicate 3 Event.tick)).training = false ∧
    (run (StartTraining 0 c7State)
        (List.replicate 3 Event.tick)).remaining_seconds = 0 :=
  ⟨by decide,
   (timed_mode_countdown 3 0 c7State (by decide) rfl rfl
     (by decide)).2.2.2.1,
   (timed_mode_countdown 3 0 c7State (by decide) rfl rfl
     (by decide)).2.2.2.2⟩

/-! ### C6: Challenge-mode completion -/

lemma checkChallenge_completes (N : Nat) (s : TrainerState)
    (hm : s.mode = TrainingMode.kChallenge) (ht : s.target_rounds = N)
    (htr : s.training = true) (hc : s.rounds_correct ≤ N) :
    ChallengeInv N (checkChallenge s) := by
  unfold checkChallenge
  split
  · refine ⟨by simp [hm], by simp [ht], by simp [hc], ?_, ?_⟩
    · intro h
      rw [StopTraining_training] at h
      cases h
    · intro _
      simp
  · next hcond =>
      have hlt : ¬(s.target_rounds ≤ s.rounds_correct) :=
        fun hle => hcond ⟨hm, hle⟩
      exact ⟨hm, ht, hc, fun _ => by omega,
        fun hf => by simp [htr] at hf⟩

lemma handleSingleKey_inv (N : Nat) (item : TrainingItem) (ev : KeyEvent)
    (rand : Nat) (s : TrainerState)
    (hm : s.mode = TrainingMode.kChallenge) (ht : s.target_rounds = N)
    (htr : s.training = true) (hlt : s.rounds_correct < N) :
    ChallengeInv N (handleSingleKey item ev rand s) := by
  unfold handleSingleKey
  cases htxt : ev.text.map Char.toLower with
  | nil =>
      exact ⟨hm, ht, show s.rounds_correct ≤ N by omega, fun _ => hlt,
        fun hf => by simp [htr] at hf⟩
  | cons ch rest =>
      dsimp only
      split
      · refine checkChallenge_completes N _ (by simp [hm]) (by simp [ht])
          (by simp [htr]) ?_
        simp
        omega
      · exact checkChallenge_completes N _ hm ht htr
          (show s.rounds_correct ≤ N by omega)

lemma handleCombo_inv (N : Nat) (item : TrainingItem) (ev : KeyEvent)
    (rand : Nat) (s : TrainerState)
    (hm : s.mode = TrainingMode.kChallenge) (ht : s.target_rounds = N)
    (htr : s.training = true) (hlt : s.rounds_correct < N) :
    ChallengeInv N (handleCombo item ev rand s) := by
  unfold handleCombo
  split
  · exact ⟨hm, ht, by omega, fun _ => hlt, fun hf => by simp [htr] at hf⟩
  · dsimp only
    split
    · refine checkChallenge_completes N _ (by simp [hm]) (by simp [ht])
        (by simp [htr]) ?_
      simp
      omega
    · exact checkChallenge_completes N _ hm ht htr
        (show s.rounds_correct ≤ N by omega)

lemma handleSpecialKey_inv (N : Nat) (item : TrainingItem) (ev : KeyEvent)
    (rand : Nat) (s : TrainerState)
    (hm : s.mode = TrainingMode.kChallenge) (ht : s.target_rounds = N)
    (htr : s.training = true) (hlt : s.rounds_correct < N) :
    ChallengeInv N (handleSpecialKey item ev rand s) := by
  unfold handleSpecialKey
  dsimp only
  split
  · refine checkChallenge_completes N _ (by simp [hm]) (by simp [ht])
      (by simp [htr]) ?_
    simp
    omega
  · exact checkChallenge_completes N _ hm ht htr
      (show s.rounds_correct ≤ N by omega)

lemma handleSequence_inv (N : Nat) (item : TrainingItem) (ev : KeyEvent)
    (rand : Nat) (s : TrainerState)
    (hm : s.mode = TrainingMode.kChallenge) (ht : s.target_rounds = N)
    (htr : s.training = true) (hlt : s.rounds_correct < N) :
    ChallengeInv N (handleSequence item ev rand s) := by
  unfold handleSequence
  cases htxt : ev.text.map Char.toLower with
  | nil =>
      exact ⟨hm, ht, show s.rounds_correct ≤ N by omega, fun _ => hlt,
        fun hf => by simp [htr] at hf⟩
  | cons ch rest =>
      dsimp only
      split
      · exact ⟨hm, ht, by omega, fun _ => hlt, fun hf => by simp [htr] at hf⟩
      · generalize (if item.sequence.length ≤ s.sequence_pos then 0
            else s.sequence_pos) = pos
        split
        · split
          · refine checkChallenge_completes N _ (by simp [hm]) (by simp [ht])
              (by simp [htr]) ?_
            simp
            omega
          · exact checkChallenge_completes N _ hm ht htr
              (show s.rounds_correct ≤ N by omega)
        · exact checkChallenge_completes N _ hm ht htr
            (show s.rounds_correct ≤ N by omega)

lemma ResumeTraining_fields (s : TrainerState) :
    (ResumeTraining s).rounds_correct = s.rounds_correct ∧
    (ResumeTraining s).rounds_total = s.rounds_total ∧
    (ResumeTraining s).mode = s.mode ∧
    (ResumeTraining s).target_rounds = s.target_rounds ∧
    (ResumeTraining s).training = s.training ∧
    ((ResumeTraining s).paused = false ∨
      (ResumeTraining s).paused = s.paused) := by
  unfold ResumeTraining
  dsimp only
  split
  · exact ⟨rfl, rfl, rfl, rfl, rfl, Or.inr rfl⟩
  · split
    · exact ⟨rfl, rfl, rfl, rfl, rfl, Or.inl rfl⟩
    · exact ⟨rfl, rfl, rfl, rfl, rfl, Or.inl rfl⟩

lemma PauseTraining_cases (s : TrainerState) :
    PauseTraining s = s ∨
    (s.training = true ∧
     (PauseTraining s).rounds_correct = s.rounds_correct ∧
     (PauseTraining s).rounds_total = s.rounds_total ∧
     (PauseTraining s).mode = s.mode ∧
     (PauseTraining s).target_rounds = s.target_rounds ∧
     (PauseTraining s).training = s.training) := by
  unfold PauseTraining
  split
  · exact Or.inl rfl
  · next hcond =>
      push_neg at hcond
      exact Or.inr ⟨by simpa using hcond.1, rfl, rfl, rfl, rfl, rfl⟩

lemma keyPressEvent_inv (N : Nat) (ev : KeyEvent) (rand : Nat)
    (s : TrainerState) (hInv : ChallengeInv N s) :
    ChallengeInv N (keyPressEvent ev rand s) := by
  obtain ⟨hm, ht, hle, hrun, hpz⟩ := hInv
  unfold keyPressEvent
  by_cases c1 : (s.paused = true ∧ ev.key = Key_Space)
  · rw [if_pos c1]
    obtain ⟨f1, _, f3, f4, f5, f6⟩ := ResumeTraining_fields s
    refine ⟨by rw [f3]; exact hm, by rw [f4]; exact ht, by rw [f1]; exact hle,
      ?_, ?_⟩
    · intro h
      rw [f5] at h
      rw [f1]
      exact hrun h
    · intro hf
      rw [f5] at hf
      rcases f6 with h | h
      · exact h
      · rw [h]
        exact hpz hf
  · rw [if_neg c1]
    by_cases c2 : (¬s.training = true ∨ s.paused = true)
    · rw [if_pos c2]
      exact ⟨hm, ht, hle, hrun, hpz⟩
    · rw [if_neg c2]
      push_neg at c2
      have htr : s.training = true := c2.1
      have hp : s.paused = false := by simpa using c2.2
      by_cases c3 : (s.items.isEmpty = true ∨ s.current_index < 0 ∨
          (s.items.length : Int) ≤ s.current_index)
      · rw [if_pos c3]
        exact ⟨hm, ht, hle, hrun, hpz⟩
      · rw [if_neg c3]
        by_cases c4 : (ev.key = Key_Shift ∨ ev.key = Key_Control ∨
            ev.key = Key_Alt ∨ ev.key = Key_Meta)
        · rw [if_pos c4]
          exact ⟨hm, ht, hle, hrun, hpz⟩
        · rw [if_neg c4]
          by_cases c5 : ev.key = Key_Escape
          · rw [if_pos c5]
            refine ⟨by simp [hm], by simp [ht], by simp [hle], ?_, ?_⟩
            · intro h
              rw [StopTraining_training] at h
              cases h
            · intro _
              simp
          · rw [if_neg c5]
            cases hg : s.items.get? s.current_index.toNat with
            | none => exact ⟨hm, ht, hle, hrun, hpz⟩
            | some item =>
                dsimp only
                cases item.type
                · exact handleSingleKey_inv N item ev rand s hm ht htr
                    (hrun htr)
                · exact handleCombo_inv N item ev rand s hm ht htr (hrun htr)
                · exact handleSequence_inv N item ev rand s hm ht htr
                    (hrun htr)
                · exact handleSpecialKey_inv N item ev rand s hm ht htr
                    (hrun htr)

lemma step_inv (N : Nat) (s : TrainerState) (e : Event)
    (hInv : ChallengeInv N s) : ChallengeInv N (step s e) := by
  obtain ⟨hm, ht, hle, hrun, hpz⟩ := hInv
  cases e with
  | key ev rand => exact keyPressEvent_inv N ev rand s ⟨hm, ht, hle, hrun, hpz⟩
  | tick =>
      show ChallengeInv N (OnTimerTick s)
      unfold OnTimerTick
      by_cases c : (¬s.training = true ∨ s.paused = true)
      · rw [if_pos c]
        exact ⟨hm, ht, hle, hrun, hpz⟩
      · rw [if_neg c, if_neg (by simp [hm])]
        exact ⟨hm, ht, hle, hrun, hpz⟩
  | advance ms => exact ⟨hm, ht, hle, hrun, hpz⟩
  | pauseClick =>
      show ChallengeInv N (PauseTraining s)
      rcases PauseTraining_cases s with h | ⟨htr, f1, _, f3, f4, f5⟩
      · rw [h]
        exact ⟨hm, ht, hle, hrun, hpz⟩
      · refine ⟨by rw [f3]; exact hm, by rw [f4]; exact ht,
          by rw [f1]; exact hle, ?_, ?_⟩
        · intro _
          rw [f1]
          exact hrun htr
        · intro hf
          rw [f5, htr] at hf
          cases hf
  | resumeClick =>
      show ChallengeInv N (ResumeTraining s)
      obtain ⟨f1, _, f3, f4, f5, f6⟩ := ResumeTraining_fields s
      refine ⟨by rw [f3]; exact hm, by rw [f4]; exact ht,
        by rw [f1]; exact hle, ?_, ?_⟩
      · intro h
        rw [f5] at h
        rw [f1]
        exact hrun h
      · intro hf
        rw [f5] at hf
        rcases f6 with h | h
        · exact h
        · rw [h]
          exact hpz hf
  | stopClick =>
      show ChallengeInv N (StopTraining s)
      refine ⟨by simp [hm], by simp [ht], by simp [hle], ?_, ?_⟩
      · intro h
        rw [StopTraining_training] at h
        cases h
      · intro _
        simp
  | closeReq rand =>
      show ChallengeInv N (closeEvent rand s).1
      unfold closeEvent
      by_cases htr : s.training = true
      · rw [if_pos htr]
        by_cases h4 : IsCurrentItemAltF4 s = true
        · rw [if_pos h4]
          dsimp only
          have hlt := hrun htr
          refine checkChallenge_completes N _ (by simp [hm]) (by simp [ht])
            (by simp [htr]) ?_
          simp
          omega
        · rw [if_neg h4]
          exact ⟨hm, ht, hle, hrun, hpz⟩
      · rw [if_neg htr]
        exact ⟨hm, ht, hle, hrun, hpz⟩

lemma run_inv (N : Nat) (es : List Event) :
    ∀ s : TrainerState, ChallengeInv N s → ChallengeInv N (run s es) := by
  induction es with
  | nil => exact fun s h => h
  | cons e es ih => exact fun s h => ih (step s e) (step_inv N s e h)

@[simp] lemma FilterItemsByDifficulty_mode (s : TrainerState) :
    (FilterItemsByDifficulty s).mode = s.mode := by
  unfold FilterItemsByDifficulty
  dsimp only
  split <;> rfl

@[simp] lemma FilterItemsByDifficulty_target_rounds (s : TrainerState) :
    (FilterItemsByDifficulty s).target_rounds = s.target_rounds := by
  unfold FilterItemsByDifficulty
  dsimp only
  split <;> rfl

@[simp] lemma FilterItemsByDifficulty_rounds_correct (s : TrainerState) :
    (FilterItemsByDifficulty s).rounds_correct = s.rounds_correct := by
  unfold FilterItemsByDifficulty
  dsimp only
  split <;> rfl

@[simp] lemma FilterItemsByDifficulty_training (s : TrainerState) :
    (FilterItemsByDifficulty s).training = s.training := by
  unfold FilterItemsByDifficulty
  dsimp only
  split <;> rfl

@[simp] lemma FilterItemsByDifficulty_paused (s : TrainerState) :
    (FilterItemsByDifficulty s).paused = s.paused := by
  unfold FilterItemsByDifficulty
  dsimp only
  split <;> rfl

lemma StartTraining_inv (N rand : Nat) (s0 : TrainerState)
    (hN : 1 ≤ N) (hm : s0.mode = TrainingMode.kChallenge)
    (ht : s0.target_rounds = N) (hc : s0.rounds_correct = 0)
    (htr : s0.training = false) (hp : s0.paused = false) :
    ChallengeInv N (StartTraining rand s0) := by
  unfold StartTraining
  dsimp only
  by_cases hbe : s0.items.isEmpty = true
  · rw [if_pos hbe]
    by_cases hbe2 : (FilterItemsByDifficulty s0).items.isEmpty = true
    · rw [if_pos hbe2]
      refine ⟨by simp [hm], by simp [ht], ?_, ?_, ?_⟩
      · simp
        omega
      · intro h
        rw [FilterItemsByDifficulty_training, htr] at h
        cases h
      · intro _
        simp [hp]
    · rw [if_neg hbe2]
      have hmode : (FilterItemsByDifficulty s0).mode =
          TrainingMode.kChallenge := by
        rw [FilterItemsByDifficulty_mode]
        exact hm
      rw [hmode]
      dsimp only
      refine ⟨by simp [hmode], by simp [ht], by simp, by simp; omega, ?_⟩
      intro hf
      simp at hf
  · rw [if_neg hbe, if_neg hbe, hm]
    dsimp only
    refine ⟨by simp [hm], by simp [ht], by simp, by simp; omega, ?_⟩
    intro hf
    simp at hf

lemma stopped_frozen (s : TrainerState) (htr : s.training = false)
    (hp : s.paused = false) :
    (∀ (ev : KeyEvent) (rand : Nat), keyPressEvent ev rand s = s) ∧
    OnTimerTick s = s := by
  constructor
  · intro ev rand
    unfold keyPressEvent
    rw [if_neg (by simp [hp]), if_pos (Or.inl (by simp [htr]))]
  · exact OnTimerTick_inert s (Or.inl htr)

/-- C6: starting a fresh Challenge session with targetRounds = N ≥ 1, no
    trace of engine events can push roundsCorrect past N; while the
    session is still running roundsCorrect is strictly below N (so the
    forced stop fires in the very round that reaches N, with roundsCorrect
    exactly N); and once stopped, further key events and ticks leave the
    state entirely unchanged. -/
theorem challenge_completion (N rand : Nat) (s0 : TrainerState)
    (es : List Event)
    (hN : 1 ≤ N) (hm : s0.mode = TrainingMode.kChallenge)
    (ht : s0.target_rounds = N) (hc : s0.rounds_correct = 0)
    (htr : s0.training = false) (hp : s0.paused = false) :
    (run (StartTraining rand s0) es).rounds_correct ≤ N ∧
    ((run (StartTraining rand s0) es).training = true →
      (run (StartTraining rand s0) es).rounds_correct < N) ∧
    ((run (StartTraining rand s0) es).training = false →
      (∀ (ev : KeyEvent) (r : Nat),
        keyPressEvent ev r (run (StartTraining rand s0) es) =
          run (StartTraining rand s0) es) ∧
      OnTimerTick (run (StartTraining rand s0) es) =
        run (StartTraining rand s0) es) := by
  have hinv := run_inv N es (StartTraining rand s0)
    (StartTraining_inv N rand s0 hN hm ht hc htr hp)
  obtain ⟨_, _, hle, hrun, hpz⟩ := hinv
  exact ⟨hle, hrun, fun hf => stopped_frozen _ hf (hpz hf)⟩

/-- Witness for C6: a Challenge session with target 2 after two correct
    combo rounds: roundsCorrect is capped at 2 and, the session having
    stopped, further events are inert. -/
theorem challenge_completion_witness :
    (1 : Nat) ≤ 2 ∧
    ((run (StartTraining 0 c6State) c6Trace).rounds_correct ≤ 2 ∧
     ((run (StartTraining 0 c6State) c6Trace).training = true →
       (run (StartTraining 0 c6State) c6Trace).rounds_correct < 2) ∧
     ((run (StartTraining 0 c6State) c6Trace).training = false →
       (∀ (ev : KeyEvent) (r : Nat),
         keyPressEvent ev r (run (StartTraining 0 c6State) c6Trace) =
           run (StartTraining 0 c6State) c6Trace) ∧
       OnTimerTick (run (StartTraining 0 c6State) c6Trace) =
         run (StartTraining 0 c6State) c6Trace)) :=
  ⟨by decide,
   challenge_completion 2 0 c6State c6Trace (by decide) rfl rfl rfl rfl rfl⟩

/-! ### C1: pause freezes elapsed-time accounting -/

/-- C1: with a single pause/resume cycle the statistics' elapsed
    milliseconds equal the wall time spent Running (the spec's 5s/5s/5s
    example accounts 10s, not 15s), but PauseTraining overwrites the
    paused-total with the time since the last resume instead of
    accumulating (trainer_window.cpp:820), so after a second pause the
    accounted elapsed time (4s) no longer equals the time spent Running
    (7s), refuting the claim for arbitrarily many pause/resume cycles. -/
theorem pause_accounting_overwrites :
    statsElapsedMs (run c1Start c1TraceOnePause) = 10000 ∧
    runningMs c1Start c1TraceOnePause = 10000 ∧
    statsElapsedMs (run c1Start c1TraceTwoPauses) = 4000 ∧
    runningMs c1Start c1TraceTwoPauses = 7000 ∧
    statsElapsedMs (run c1Start c1TraceTwoPauses) ≠
      runningMs c1Start c1TraceTwoPauses := by
  refine ⟨?_, ?_, ?_, ?_, ?_⟩ <;> decide

end LeftTrainer
